import Mathlib

/-!
Verification of the `SessionedApiClient` contract of the SafeOceanProject app.

The embedding models `src/src/services/ApiService.js` (the axios wrapper with a
request interceptor and AsyncStorage session persistence) and the caller-side
validation of `ReportHazardScreen.handleSubmit`.

Modelling conventions:
- JavaScript values are the inductive `JsVal` (objects as association lists);
  JS truthiness is `JsVal.truthy`; property access `v.k` is `JsVal.getProp`
  (returning `none` for JS `undefined`).
- The string persisted under the AsyncStorage key `user` is `Stored`: a valid
  JSON text is represented by its parse result (`Stored.json v`, always a
  non-empty string, so always truthy), and `Stored.malformed s` stands for a
  stored string `s` that is not valid JSON (`JSON.parse` throws on it).
  `JSON.stringify u` is modelled as `Stored.json u`.
- Each client operation is a function of the behaviour of the server for the one
  request it issues, the current storage state, and its argument; it returns an
  `Outcome`: the value returned or error thrown, the storage state afterwards,
  and the list of HTTP requests actually transmitted.
-/

/-- A JavaScript value: `null` (also standing for `undefined` where a value is
returned), booleans, numbers, strings, and objects as association lists. -/
inductive JsVal where
| null : JsVal
| bool (b : Bool) : JsVal
| num (n : Int) : JsVal
| str (s : String) : JsVal
| obj (fields : List (String × JsVal)) : JsVal

/-- JavaScript truthiness: `null`, `false`, `0` and `""` are falsy, every
object is truthy. -/
def JsVal.truthy : JsVal → Bool
| .null => false
| .bool b => b
| .num n => n != 0
| .str s => !s.isEmpty
| .obj _ => true

/-- JS property access `v.k`: `none` models `undefined` (absent field, or
access on a non-object primitive, which yields `undefined` without throwing;
the code never accesses a property of `null`). -/
def JsVal.getProp : JsVal → String → Option JsVal
| .obj fields, k => fields.lookup k
| _, _ => none

/-- String coercion used by the template literal `Bearer ${user.token}`. -/
def JsVal.jsToString : JsVal → String
| .str s => s
| .num n => toString n
| .bool b => if b then "true" else "false"
| .null => "null"
| .obj _ => "[object Object]"

/-- Truthiness of a possibly-`undefined` value (`undefined` is falsy). -/
def optTruthy : Option JsVal → Bool
| some v => v.truthy
| none => false

/-- The string stored under the AsyncStorage key `user`: either a valid JSON
text, represented by the value it parses to, or a malformed string `s` on
which `JSON.parse` throws. -/
inductive Stored where
| json (v : JsVal) : Stored
| malformed (s : String) : Stored

/-- Truthiness of the stored string: a valid JSON text is non-empty, hence
truthy; a malformed string is truthy iff non-empty. -/
def Stored.truthy : Stored → Bool
| .json _ => true
| .malformed s => !s.isEmpty

/-- An error as observed by a `catch`: a thrown JS value (the client throws
plain objects), or the `SyntaxError` of `JSON.parse` on a malformed string. -/
inductive JsErr where
| thrown (v : JsVal) : JsErr
| parseErr (s : String) : JsErr

/-- `JSON.parse` on the stored string: returns the represented value for a
valid JSON text and throws on a malformed string. -/
def jsonParse : Stored → Except JsErr JsVal
| .json v => .ok v
| .malformed s => .error (.parseErr s)

/-- An outbound HTTP request of the client. -/
inductive Request where
| post (url : String) (headers : List (String × String)) (body : JsVal) : Request
| get (url : String) (headers : List (String × String)) : Request

/-- The result of running one client operation: the value returned or error
thrown, the storage state afterwards, and the requests transmitted. -/
structure Outcome where
  result : Except JsErr JsVal
  stored : Option Stored
  sent : List Request

/-- Behaviour of the server for the single request an operation issues: a reply
with a 2xx flag and a body, or a transport failure (axios rejects with an
error whose `response` is `undefined`). -/
inductive ServerBehavior where
| reply (ok : Bool) (body : JsVal) : ServerBehavior
| networkFail : ServerBehavior

namespace ApiService

/-- Default headers of the axios instance (`Content-Type: application/json`).
The instance never pre-sets `Authorization`, so the assignment made by the
interceptor is an append. -/
def baseHeaders : List (String × String) := [("Content-Type", "application/json")]

/-- The request interceptor installed in the constructor: reads the stored
`user` string; if it is truthy it parses it (`JSON.parse` can throw, rejecting
the request before it is sent) and, when the parsed value and its `token` are
truthy, sets `Authorization: Bearer <token>`. -/
def interceptRequest (st : Option Stored) (headers : List (String × String)) :
    Except JsErr (List (String × String)) :=
  match st with
  | none => .ok headers
  | some s =>
    if s.truthy then
      match jsonParse s with
      | .error e => .error e
      | .ok user =>
        if user.truthy && optTruthy (user.getProp "token") then
          match user.getProp "token" with
          | some t => .ok (headers ++ [("Authorization", "Bearer " ++ t.jsToString)])
          | none => .ok headers
        else .ok headers
    else .ok headers

/-- Generic fallback error of `login`. -/
def loginFallback : JsVal := .obj [("message", .str "Login failed")]

/-- Generic fallback error of `register`. -/
def registerFallback : JsVal := .obj [("message", .str "Registration failed")]

/-- Generic fallback error of `getWeather`. -/
def weatherFallback : JsVal := .obj [("message", .str "Failed to fetch weather")]

/-- Operation `login(credentials)`: POSTs to `/auth/login`; on a 2xx reply
whose body and `body.user` are truthy it persists `JSON.stringify(user)` and
returns the body; on failure it throws `error.response?.data` when that is
truthy and the generic `Login failed` object otherwise. An interceptor error
rejects before sending (no `response`). -/
def login (beh : ServerBehavior) (st : Option Stored) (credentials : JsVal) : Outcome :=
  match interceptRequest st baseHeaders with
  | .error _ => { result := .error (.thrown loginFallback), stored := st, sent := [] }
  | .ok hdrs =>
    let req := Request.post "/auth/login" hdrs credentials
    match beh with
    | .networkFail => { result := .error (.thrown loginFallback), stored := st, sent := [req] }
    | .reply ok body =>
      if ok then
        match body.getProp "user" with
        | some u =>
          if body.truthy && u.truthy then
            { result := .ok body, stored := some (.json u), sent := [req] }
          else
            { result := .ok body, stored := st, sent := [req] }
        | none => { result := .ok body, stored := st, sent := [req] }
      else
        { result := .error (.thrown (if body.truthy then body else loginFallback)),
          stored := st, sent := [req] }

/-- Operation `register(userData)`: POSTs to `/auth/register`; returns the
body on 2xx, otherwise throws `error.response?.data` when truthy and the
generic `Registration failed` object otherwise. Never touches storage. -/
def register (beh : ServerBehavior) (st : Option Stored) (userData : JsVal) : Outcome :=
  match interceptRequest st baseHeaders with
  | .error _ => { result := .error (.thrown registerFallback), stored := st, sent := [] }
  | .ok hdrs =>
    let req := Request.post "/auth/register" hdrs userData
    match beh with
    | .networkFail => { result := .error (.thrown registerFallback), stored := st, sent := [req] }
    | .reply ok body =>
      if ok then { result := .ok body, stored := st, sent := [req] }
      else
        { result := .error (.thrown (if body.truthy then body else registerFallback)),
          stored := st, sent := [req] }

/-- Operation `logout()`: removes the stored `user` key; no request, always
succeeds (the `undefined` return is modelled as `null`). -/
def logout (_st : Option Stored) : Outcome :=
  { result := .ok .null, stored := none, sent := [] }

/-- Operation `getStoredUser()`: reads the stored string and returns
`userString ? JSON.parse(userString) : null`; `JSON.parse` throws on a
malformed non-empty string (there is no catch). -/
def getStoredUser (st : Option Stored) : Outcome :=
  match st with
  | none => { result := .ok .null, stored := st, sent := [] }
  | some s =>
    if s.truthy then
      match jsonParse s with
      | .ok v => { result := .ok v, stored := st, sent := [] }
      | .error e => { result := .error e, stored := st, sent := [] }
    else { result := .ok .null, stored := st, sent := [] }

end ApiService

/-- A hexadecimal digit character (uppercase), as produced by the percent
encoding of `encodeURIComponent`. -/
def hexDigit (n : Nat) : Char :=
  if n < 10 then Char.ofNat (48 + n) else Char.ofNat (55 + n)

/-- The characters `encodeURIComponent` leaves unescaped:
`A-Z a-z 0-9`, hyphen, underscore, dot, bang, tilde, star, quote and
parentheses. -/
def isUnreservedURI (c : Char) : Bool :=
  let n := c.toNat
  (48 ≤ n && n ≤ 57) || (65 ≤ n && n ≤ 90) || (97 ≤ n && n ≤ 122) ||
  n == 45 || n == 95 || n == 46 || n == 33 || n == 126 ||
  n == 42 || n == 39 || n == 40 || n == 41

/-- The UTF-8 bytes of a character, as `encodeURIComponent` encodes them. -/
def utf8Bytes (c : Char) : List Nat :=
  let n := c.toNat
  if n < 128 then [n]
  else if n < 2048 then [192 + n / 64, 128 + n % 64]
  else if n < 65536 then [224 + n / 4096, 128 + (n / 64) % 64, 128 + n % 64]
  else [240 + n / 262144, 128 + (n / 4096) % 64, 128 + (n / 64) % 64, 128 + n % 64]

/-- Percent-escape of one byte: `%` followed by two uppercase hex digits. -/
def percentByte (b : Nat) : List Char :=
  ['%', hexDigit ((b / 16) % 16), hexDigit (b % 16)]

/-- `encodeURIComponent` on one character: unreserved characters pass through,
every other character becomes the percent-escapes of its UTF-8 bytes. -/
def encodeChar (c : Char) : List Char :=
  if isUnreservedURI c then [c] else (utf8Bytes c).flatMap percentByte

/-- The JS builtin `encodeURIComponent`. -/
def encodeURIComponent (s : String) : String :=
  String.mk (s.data.flatMap encodeChar)

namespace ApiService

/-- Operation `getWeather(query)`: GETs
`/weather/get?q=${encodeURIComponent(query)}`; returns the body on 2xx,
otherwise throws `error.response?.data` when truthy and the generic
`Failed to fetch weather` object otherwise. Never touches storage. -/
def getWeather (beh : ServerBehavior) (st : Option Stored) (query : String) : Outcome :=
  match interceptRequest st baseHeaders with
  | .error _ => { result := .error (.thrown weatherFallback), stored := st, sent := [] }
  | .ok hdrs =>
    let req := Request.get ("/weather/get?q=" ++ encodeURIComponent query) hdrs
    match beh with
    | .networkFail => { result := .error (.thrown weatherFallback), stored := st, sent := [req] }
    | .reply ok body =>
      if ok then { result := .ok body, stored := st, sent := [req] }
      else
        { result := .error (.thrown (if body.truthy then body else weatherFallback)),
          stored := st, sent := [req] }

/-- Generic fallback error of `reportHazard` (the message the hazard screen
falls back to when the error carries none). -/
def hazardFallback : JsVal := .obj [("message", .str "Failed to report hazard")]

/-- Modelled from the spec: `reportHazard` is absent from `ApiService.js`;
only its caller `ReportHazardScreen.handleSubmit` is in the source. Per the
spec it is a client operation like the others — it POSTs the report to the
(implied) `/hazards/report` endpoint through the same intercepted instance,
returns the ack body of the server, and forwards server-side validation failures
verbatim when a (truthy) body is available, else a generic message. -/
def reportHazard (beh : ServerBehavior) (st : Option Stored) (report : JsVal) : Outcome :=
  match interceptRequest st baseHeaders with
  | .error _ => { result := .error (.thrown hazardFallback), stored := st, sent := [] }
  | .ok hdrs =>
    let req := Request.post "/hazards/report" hdrs report
    match beh with
    | .networkFail => { result := .error (.thrown hazardFallback), stored := st, sent := [req] }
    | .reply ok body =>
      if ok then { result := .ok body, stored := st, sent := [req] }
      else
        { result := .error (.thrown (if body.truthy then body else hazardFallback)),
          stored := st, sent := [req] }

end ApiService

namespace ReportHazardScreen

/-- The component state of `ReportHazardScreen` that `handleSubmit` reads:
form fields, captured coordinates (`null` or a number), and the user loaded
from `ApiService.getStoredUser` (`none` models `null`). -/
structure FormState where
  hazardType : String
  description : String
  locationName : String
  latitude : Option Int
  longitude : Option Int
  currentUser : Option JsVal

/-- Truthiness of a coordinate state value (`null` and `0` are falsy). -/
def optNumTruthy : Option Int → Bool
| some n => n != 0
| none => false

/-- The `hazardData` object `handleSubmit` builds once validation passes. -/
def buildHazardData (f : FormState) : JsVal :=
  .obj [
    ("user_id", match f.currentUser with
      | some u => match u.getProp "id" with | some v => v | none => .null
      | none => .null),
    ("hazard_type", .str f.hazardType),
    ("description", .str f.description.trim),
    ("location_name", .str (if f.locationName.trim.isEmpty then "Unknown Location"
                            else f.locationName.trim)),
    ("latitude", match f.latitude with | some n => .num n | none => .null),
    ("longitude", match f.longitude with | some n => .num n | none => .null)]

/-- What one run of `handleSubmit` did: the alert shown (title, message), the
requests transmitted, and the storage state afterwards. -/
structure SubmitOutcome where
  alert : String × String
  sent : List Request
  stored : Option Stored

/-- The message the catch branch alerts: `error.message` when it is a
non-empty string, else the generic fallback text. -/
def submitErrMessage : JsErr → String
| .thrown v =>
  match v.getProp "message" with
  | some (.str s) => if s.isEmpty then "Failed to report hazard" else s
  | _ => "Failed to report hazard"
| .parseErr _ => "Failed to report hazard"

/-- `handleSubmit`: validates `hazardType`, trimmed `description`, captured
coordinates and logged-in user, alerting and returning before any network
call when one is missing; otherwise builds `hazardData` and awaits
`ApiService.reportHazard`, alerting success or the message of the caught
error. -/
def handleSubmit (beh : ServerBehavior) (st : Option Stored) (f : FormState) : SubmitOutcome :=
  if f.hazardType.isEmpty then
    { alert := ("Error", "Please select a hazard type."), sent := [], stored := st }
  else if f.description.trim.isEmpty then
    { alert := ("Error", "Please provide a description."), sent := [], stored := st }
  else if !optNumTruthy f.latitude || !optNumTruthy f.longitude then
    { alert := ("Error", "Please capture your location first."), sent := [], stored := st }
  else if !optTruthy f.currentUser then
    { alert := ("Error", "You must be logged in to report a hazard."), sent := [], stored := st }
  else
    let out := ApiService.reportHazard beh st (buildHazardData f)
    match out.result with
    | .ok _ => { alert := ("Success", "Hazard reported successfully!"),
                 sent := out.sent, stored := out.stored }
    | .error e => { alert := ("Error", submitErrMessage e),
                    sent := out.sent, stored := out.stored }

end ReportHazardScreen

/-! ### Helper predicates and lemmas shared by the claim theorems -/

/-- A storage state whose stored string, if any, is valid JSON or empty —
i.e. a state on which `JSON.parse` is never reached or does not throw.
Every state the client itself can produce is of this form. -/
def goodStore : Option Stored → Bool
| some (.malformed s) => s.isEmpty
| _ => true

/-- The bearer token of the currently persisted session, when one is
persisted: the stored string parses to a truthy value with a truthy `token`
field. `none` means no session is persisted (nothing stored, empty string,
or a record without a usable token). -/
def sessionTokenOf : Option Stored → Option JsVal
| some (.json v) =>
  if v.truthy && optTruthy (v.getProp "token") then
    match v.getProp "token" with
    | some t => some t
    | none => none
  else none
| _ => none

/-- On a parseable storage state the interceptor succeeds and appends the
`Authorization` header exactly when a session with a usable token is
persisted. -/
theorem interceptRequest_goodStore (st : Option Stored) (h : goodStore st = true) :
    ApiService.interceptRequest st ApiService.baseHeaders =
      .ok (ApiService.baseHeaders ++ (match sessionTokenOf st with
        | some t => [("Authorization", "Bearer " ++ t.jsToString)]
        | none => [])) := by
  rcases st with _ | s
  · rfl
  · rcases s with v | s
    · simp only [ApiService.interceptRequest, Stored.truthy, jsonParse, sessionTokenOf]
      by_cases hb : (v.truthy && optTruthy (v.getProp "token")) = true
      · rcases hv : v.getProp "token" with _ | t
        · rw [hv] at hb; simp [optTruthy] at hb
        · have hb' := hb
          rw [hv] at hb'
          rcases (Bool.and_eq_true _ _).mp hb' with ⟨h1, h2⟩
          simp [hv, h1, h2]
      · simp [hb]
    · have hs : s.isEmpty = true := h
      simp [ApiService.interceptRequest, Stored.truthy, hs, sessionTokenOf]

/-- On a parseable storage state the interceptor does not reject the
request. -/
theorem interceptRequest_ok (st : Option Stored) (h : goodStore st = true) :
    ∃ hdrs, ApiService.interceptRequest st ApiService.baseHeaders = .ok hdrs :=
  ⟨_, interceptRequest_goodStore st h⟩

/-- A field lookup succeeding forces the value to be an object, hence truthy. -/
theorem truthy_of_getProp (v u : JsVal) (k : String) (h : v.getProp k = some u) :
    v.truthy = true := by
  cases v <;> simp [JsVal.getProp, JsVal.truthy] at h ⊢

/-! ### C1 — getStoredSession on absent or corrupt storage -/

/-- C1 (amended): `getStoredUser` reads the persisted record without issuing
any request or writing storage, returning None (`null`) when nothing or an
empty string is stored and the parsed session when the stored string is valid
JSON; however, on a non-empty malformed stored string `JSON.parse` throws —
the corrupt case is not treated as absent. -/
theorem C1_getStoredUser_amended (v : JsVal) (s : String) (hs : s.isEmpty = false) :
    (ApiService.getStoredUser none).result = .ok .null ∧
    (ApiService.getStoredUser (some (.json v))).result = .ok v ∧
    (ApiService.getStoredUser (some (.malformed ""))).result = .ok .null ∧
    (ApiService.getStoredUser (some (.malformed s))).result = .error (.parseErr s) ∧
    (∀ st : Option Stored, (ApiService.getStoredUser st).sent = [] ∧
      (ApiService.getStoredUser st).stored = st) := by
  refine ⟨rfl, rfl, rfl, ?_, ?_⟩
  · simp [ApiService.getStoredUser, Stored.truthy, hs, jsonParse]
  · intro st
    rcases st with _ | s'
    · exact ⟨rfl, rfl⟩
    · rcases s' with v' | s'
      · exact ⟨rfl, rfl⟩
      · by_cases hse : s'.isEmpty = true <;>
          simp [ApiService.getStoredUser, Stored.truthy, hse, jsonParse]

/-- C1 witness: the amended statement at the record `1`, the malformed stored
string `oops`, and each concrete storage state. -/
theorem C1_witness :
    ("oops" : String).isEmpty = false ∧
    ((ApiService.getStoredUser none).result = .ok .null ∧
     (ApiService.getStoredUser (some (.json (.num 1)))).result = .ok (.num 1) ∧
     (ApiService.getStoredUser (some (.malformed ""))).result = .ok .null ∧
     (ApiService.getStoredUser (some (.malformed "oops"))).result = .error (.parseErr "oops") ∧
     (∀ st : Option Stored, (ApiService.getStoredUser st).sent = [] ∧
       (ApiService.getStoredUser st).stored = st)) :=
  ⟨rfl, C1_getStoredUser_amended (.num 1) "oops" rfl⟩

/-- C1 counterexample: with the non-empty malformed string `oops` persisted,
`getStoredUser` throws the SyntaxError of `JSON.parse` instead of treating
the corrupt record as absent and returning None. -/
theorem C1_counterexample :
    (ApiService.getStoredUser (some (.malformed "oops"))).result
      = .error (.parseErr "oops") := rfl

/-! ### C2 — bearer header iff a session is persisted -/

/-- C2 (amended): on every storage state whose stored string, if any, is
valid JSON or empty, the request pipeline does not crash and the outbound
request carries `Authorization: Bearer <token>` if and only if a session
with a usable token is persisted (`sessionTokenOf`), the header carrying
exactly that token; on a non-empty malformed stored string the interceptor
instead throws before sending (see the counterexample). -/
theorem C2_bearer_iff_session (st : Option Stored) (h : goodStore st = true) :
    ApiService.interceptRequest st ApiService.baseHeaders =
      .ok (ApiService.baseHeaders ++ (match sessionTokenOf st with
        | some t => [("Authorization", "Bearer " ++ t.jsToString)]
        | none => [])) :=
  interceptRequest_goodStore st h

/-- C2 witness: with a session whose token is `abc` persisted, the request
carries `Authorization: Bearer abc`. -/
theorem C2_witness :
    goodStore (some (.json (.obj [("token", .str "abc")]))) = true ∧
    ApiService.interceptRequest (some (.json (.obj [("token", .str "abc")])))
        ApiService.baseHeaders =
      .ok [("Content-Type", "application/json"), ("Authorization", "Bearer abc")] :=
  ⟨rfl, C2_bearer_iff_session _ rfl⟩

/-- C2 counterexample: the storage state holding the malformed string
`not json` persists no session, yet the request pipeline crashes (the
interceptor rejects the request with the `JSON.parse` error) instead of
proceeding unauthenticated. -/
theorem C2_counterexample :
    sessionTokenOf (some (.malformed "not json")) = none ∧
    ApiService.interceptRequest (some (.malformed "not json")) ApiService.baseHeaders =
      .error (.parseErr "not json") :=
  ⟨rfl, rfl⟩

/-! ### C3 — login failure and success behaviour -/

/-- C3 counterexample: the server answers 2xx with a body that has no `user`
field (a malformed body per the claim); `login` sends the request yet does
not fail — it returns the raw body. -/
theorem C3_counterexample :
    (ApiService.login (.reply true (.obj [("status", .str "ok")])) none (.obj [])).result
      = .ok (.obj [("status", .str "ok")]) ∧
    (ApiService.login (.reply true (.obj [("status", .str "ok")])) none (.obj [])).sent.length
      = 1 :=
  ⟨rfl, rfl⟩

/-- C3 (amended): from a parseable storage state, `login` fails with the
server body when the server reports non-2xx and the body is truthy, with the
generic fallback when that body is falsy or the network fails; on a 2xx reply
with a truthy `user` field it persists that user and returns the body; on a
2xx reply without a truthy `user` field — the property absent or present but
falsy (e.g. a `null` user) — it returns the body without failing and persists
nothing. -/
theorem C3_login_amended (st : Option Stored) (credentials body : JsVal)
    (h : goodStore st = true) :
    ((ApiService.login .networkFail st credentials).result
       = .error (.thrown ApiService.loginFallback)) ∧
    (body.truthy = true →
      (ApiService.login (.reply false body) st credentials).result = .error (.thrown body)) ∧
    (body.truthy = false →
      (ApiService.login (.reply false body) st credentials).result
        = .error (.thrown ApiService.loginFallback)) ∧
    (∀ u, body.getProp "user" = some u → u.truthy = true →
      (ApiService.login (.reply true body) st credentials).result = .ok body ∧
      (ApiService.login (.reply true body) st credentials).stored = some (.json u)) ∧
    (∀ u, body.getProp "user" = some u → u.truthy = false →
      (ApiService.login (.reply true body) st credentials).result = .ok body ∧
      (ApiService.login (.reply true body) st credentials).stored = st) ∧
    (body.getProp "user" = none →
      (ApiService.login (.reply true body) st credentials).result = .ok body ∧
      (ApiService.login (.reply true body) st credentials).stored = st) := by
  rcases interceptRequest_ok st h with ⟨hdrs, hI⟩
  refine ⟨?_, ?_, ?_, ?_, ?_, ?_⟩
  · simp [ApiService.login, hI]
  · intro hbt; simp [ApiService.login, hI, hbt]
  · intro hbf; simp [ApiService.login, hI, hbf]
  · intro u hu hut
    have hbt := truthy_of_getProp body u "user" hu
    constructor <;> simp [ApiService.login, hI, hu, hbt, hut]
  · intro u hu huf
    constructor <;> simp [ApiService.login, hI, hu, huf]
  · intro hu
    constructor <;> simp [ApiService.login, hI, hu]

/-- C3 witness: on a 2xx reply carrying a truthy user object, `login` returns
the body and persists exactly that user; on a 2xx reply carrying a `null`
user it returns the body without failing and persists nothing. -/
theorem C3_witness :
    goodStore none = true ∧
    (JsVal.obj [("user", .obj [("id", .num 1)])]).getProp "user" = some (.obj [("id", .num 1)]) ∧
    (JsVal.obj [("id", .num 1)]).truthy = true ∧
    ((ApiService.login (.reply true (.obj [("user", .obj [("id", .num 1)])])) none
        (.obj [])).result = .ok (.obj [("user", .obj [("id", .num 1)])]) ∧
     (ApiService.login (.reply true (.obj [("user", .obj [("id", .num 1)])])) none
        (.obj [])).stored = some (.json (.obj [("id", .num 1)]))) ∧
    (JsVal.obj [("user", .null)]).getProp "user" = some .null ∧
    JsVal.null.truthy = false ∧
    ((ApiService.login (.reply true (.obj [("user", .null)])) none (.obj [])).result
       = .ok (.obj [("user", .null)]) ∧
     (ApiService.login (.reply true (.obj [("user", .null)])) none (.obj [])).stored
       = none) :=
  ⟨rfl, rfl, rfl,
    (C3_login_amended none (.obj []) (.obj [("user", .obj [("id", .num 1)])]) rfl).2.2.2.1
      (.obj [("id", .num 1)]) rfl rfl,
    rfl, rfl,
    (C3_login_amended none (.obj []) (.obj [("user", .null)]) rfl).2.2.2.2.1
      .null rfl rfl⟩

/-! ### C5 — logout clears the session locally -/

/-- C5: from every prior storage state, `logout` issues no request, clears
the persisted session, and a `getStoredUser` performed afterwards returns
None (`null`). -/
theorem C5_logout_clears (st : Option Stored) :
    (ApiService.logout st).sent = [] ∧
    (ApiService.logout st).stored = none ∧
    (ApiService.getStoredUser (ApiService.logout st).stored).result = .ok .null :=
  ⟨rfl, rfl, rfl⟩

/-! ### C6 — login then getStoredSession returns the returned user -/

/-- C6: for every server reply reporting success with a (truthy) user object
and every parseable prior storage state, `login` persists exactly that user
object and a subsequent `getStoredUser` returns it unchanged. -/
theorem C6_login_then_getStoredUser (st : Option Stored) (credentials body u : JsVal)
    (h : goodStore st = true) (hu : body.getProp "user" = some u) (hut : u.truthy = true) :
    (ApiService.login (.reply true body) st credentials).stored = some (.json u) ∧
    (ApiService.getStoredUser
      (ApiService.login (.reply true body) st credentials).stored).result = .ok u := by
  rcases interceptRequest_ok st h with ⟨hdrs, hI⟩
  have hbt := truthy_of_getProp body u "user" hu
  have hstored : (ApiService.login (.reply true body) st credentials).stored
      = some (.json u) := by
    simp [ApiService.login, hI, hu, hbt, hut]
  exact ⟨hstored, by rw [hstored]; rfl⟩

/-- C6 witness: logging in against a reply carrying the user
`[token ↦ tok1]` persists it, and `getStoredUser` then returns it. -/
theorem C6_witness :
    goodStore none = true ∧
    (JsVal.obj [("user", .obj [("token", .str "tok1")])]).getProp "user"
      = some (.obj [("token", .str "tok1")]) ∧
    (JsVal.obj [("token", .str "tok1")]).truthy = true ∧
    ((ApiService.login (.reply true (.obj [("user", .obj [("token", .str "tok1")])])) none
        (.obj [])).stored = some (.json (.obj [("token", .str "tok1")])) ∧
     (ApiService.getStoredUser
       (ApiService.login (.reply true (.obj [("user", .obj [("token", .str "tok1")])])) none
         (.obj [])).stored).result = .ok (.obj [("token", .str "tok1")])) :=
  ⟨rfl, rfl, rfl,
    C6_login_then_getStoredUser none (.obj []) (.obj [("user", .obj [("token", .str "tok1")])])
      (.obj [("token", .str "tok1")]) rfl rfl rfl⟩

/-! ### C7 — only login and logout mutate the persisted session -/

/-- C7: for every server behaviour and every storage state, `register`,
`getWeather` and `getStoredUser` leave the persisted session exactly as it
was (`login` and `logout` are the only mutating operations). -/
theorem C7_only_login_logout_mutate (beh : ServerBehavior) (st : Option Stored)
    (userData : JsVal) (query : String) :
    (ApiService.register beh st userData).stored = st ∧
    (ApiService.getWeather beh st query).stored = st ∧
    (ApiService.getStoredUser st).stored = st := by
  refine ⟨?_, ?_, ?_⟩
  · cases hI : ApiService.interceptRequest st ApiService.baseHeaders with
    | error e => simp [ApiService.register, hI]
    | ok hdrs =>
      cases beh with
      | networkFail => simp [ApiService.register, hI]
      | reply ok body => cases ok <;> simp [ApiService.register, hI]
  · cases hI : ApiService.interceptRequest st ApiService.baseHeaders with
    | error e => simp [ApiService.getWeather, hI]
    | ok hdrs =>
      cases beh with
      | networkFail => simp [ApiService.getWeather, hI]
      | reply ok body => cases ok <;> simp [ApiService.getWeather, hI]
  · rcases st with _ | s
    · rfl
    · rcases s with v | s
      · rfl
      · by_cases hse : s.isEmpty = true <;>
          simp [ApiService.getStoredUser, Stored.truthy, hse, jsonParse]

/-! ### C10 — 2xx login reply without a user field -/

/-- C10: when the server answers `login` with 2xx but the body has no `user`
property, `login` raises no error, returns the raw body, and leaves the
persisted session unchanged. -/
theorem C10_login_user_absent (st : Option Stored) (credentials body : JsVal)
    (h : goodStore st = true) (hu : body.getProp "user" = none) :
    (ApiService.login (.reply true body) st credentials).result = .ok body ∧
    (ApiService.login (.reply true body) st credentials).stored = st := by
  rcases interceptRequest_ok st h with ⟨hdrs, hI⟩
  constructor <;> simp [ApiService.login, hI, hu]

/-- C10 witness: a 2xx reply whose body only carries a message is returned
as-is and persists nothing. -/
theorem C10_witness :
    goodStore none = true ∧
    (JsVal.obj [("message", .str "hi")]).getProp "user" = none ∧
    ((ApiService.login (.reply true (.obj [("message", .str "hi")])) none (.obj [])).result
       = .ok (.obj [("message", .str "hi")]) ∧
     (ApiService.login (.reply true (.obj [("message", .str "hi")])) none (.obj [])).stored
       = none) :=
  ⟨rfl, rfl, C10_login_user_absent none (.obj []) (.obj [("message", .str "hi")]) rfl rfl⟩

/-! ### C4 — hazard-report validation at the caller boundary -/

/-- C4: a report missing `hazardType` is rejected by `handleSubmit` with the
validation alert before any network call is made, and the other required
fields (trimmed description, coordinates, logged-in user) are likewise
rejected without a request; the (spec-modelled) `reportHazard` client
operation forwards a server-side validation failure verbatim when its body is
truthy and returns the ack body on success. -/
theorem C4_reportHazard_validation (beh : ServerBehavior) (st : Option Stored)
    (f : ReportHazardScreen.FormState) (report body : JsVal) (h : goodStore st = true) :
    (f.hazardType = "" →
      (ReportHazardScreen.handleSubmit beh st f).sent = [] ∧
      (ReportHazardScreen.handleSubmit beh st f).alert
        = ("Error", "Please select a hazard type.")) ∧
    (f.description.trim = "" → (ReportHazardScreen.handleSubmit beh st f).sent = []) ∧
    (f.latitude = none → (ReportHazardScreen.handleSubmit beh st f).sent = []) ∧
    (f.currentUser = none → (ReportHazardScreen.handleSubmit beh st f).sent = []) ∧
    (body.truthy = true →
      (ApiService.reportHazard (.reply false body) st report).result = .error (.thrown body)) ∧
    ((ApiService.reportHazard (.reply true body) st report).result = .ok body) := by
  rcases interceptRequest_ok st h with ⟨hdrs, hI⟩
  refine ⟨?_, ?_, ?_, ?_, ?_, ?_⟩
  · intro hht
    have h1 : f.hazardType.isEmpty = true := by rw [hht]; rfl
    constructor <;> simp [ReportHazardScreen.handleSubmit, h1]
  · intro hdt
    have h2 : f.description.trim.isEmpty = true := by rw [hdt]; rfl
    by_cases h1 : f.hazardType.isEmpty = true <;>
      simp [ReportHazardScreen.handleSubmit, h1, h2]
  · intro hlat
    by_cases h1 : f.hazardType.isEmpty = true
    · simp [ReportHazardScreen.handleSubmit, h1]
    · by_cases h2 : f.description.trim.isEmpty = true <;>
        simp [ReportHazardScreen.handleSubmit, h1, h2, hlat, ReportHazardScreen.optNumTruthy]
  · intro hcu
    by_cases h1 : f.hazardType.isEmpty = true
    · simp [ReportHazardScreen.handleSubmit, h1]
    · by_cases h2 : f.description.trim.isEmpty = true
      · simp [ReportHazardScreen.handleSubmit, h1, h2]
      · by_cases h3 : (!ReportHazardScreen.optNumTruthy f.latitude
            || !ReportHazardScreen.optNumTruthy f.longitude) = true <;>
          simp [ReportHazardScreen.handleSubmit, h1, h2, h3, hcu, optTruthy]
  · intro hbt
    simp [ApiService.reportHazard, hI, hbt]
  · simp [ApiService.reportHazard, hI]

/-- C4 witness: the empty form is rejected with the hazard-type alert and no
request; the modelled `reportHazard` forwards a concrete failure body
verbatim and returns a concrete ack body on success. -/
theorem C4_witness :
    goodStore none = true ∧
    ((ReportHazardScreen.FormState.mk "" "" "" none none none).hazardType = "" →
      (ReportHazardScreen.handleSubmit .networkFail none
        (ReportHazardScreen.FormState.mk "" "" "" none none none)).sent = [] ∧
      (ReportHazardScreen.handleSubmit .networkFail none
        (ReportHazardScreen.FormState.mk "" "" "" none none none)).alert
        = ("Error", "Please select a hazard type.")) ∧
    ((ReportHazardScreen.FormState.mk "" "" "" none none none).description.trim = "" →
      (ReportHazardScreen.handleSubmit .networkFail none
        (ReportHazardScreen.FormState.mk "" "" "" none none none)).sent = []) ∧
    ((ReportHazardScreen.FormState.mk "" "" "" none none none).latitude = none →
      (ReportHazardScreen.handleSubmit .networkFail none
        (ReportHazardScreen.FormState.mk "" "" "" none none none)).sent = []) ∧
    ((ReportHazardScreen.FormState.mk "" "" "" none none none).currentUser = none →
      (ReportHazardScreen.handleSubmit .networkFail none
        (ReportHazardScreen.FormState.mk "" "" "" none none none)).sent = []) ∧
    ((JsVal.obj [("message", .str "bad")]).truthy = true →
      (ApiService.reportHazard (.reply false (.obj [("message", .str "bad")])) none
        (.obj [])).result = .error (.thrown (.obj [("message", .str "bad")]))) ∧
    ((ApiService.reportHazard (.reply true (.obj [("message", .str "bad")])) none
        (.obj [])).result = .ok (.obj [("message", .str "bad")])) :=
  ⟨rfl, C4_reportHazard_validation .networkFail none
    (ReportHazardScreen.FormState.mk "" "" "" none none none)
    (.obj []) (.obj [("message", .str "bad")]) rfl⟩

/-! ### C8 — error surfacing policy -/

/-- C8 counterexample: the server reports failure with an available but empty
(falsy) body; `register` surfaces the generic fallback object, which is not
that body verbatim. -/
theorem C8_counterexample :
    (ApiService.register (.reply false (.str "")) none (.obj [])).result
      = .error (.thrown ApiService.registerFallback) ∧
    ApiService.registerFallback ≠ .str "" :=
  ⟨rfl, fun hcontra => JsVal.noConfusion hcontra⟩

/-- C8 (amended): from a parseable storage state, no failing operation is
recovered silently — `login`, `register` and `getWeather` throw the
server-provided body verbatim when the server reports failure with a truthy
body, and the generic per-operation fallback when the network fails or that
body is falsy (e.g. empty); each call transmits at most one request, so
nothing is retried. -/
theorem C8_error_surfacing_amended (beh : ServerBehavior) (st : Option Stored)
    (d body : JsVal) (q : String) (h : goodStore st = true) :
    ((ApiService.login .networkFail st d).result = .error (.thrown ApiService.loginFallback)) ∧
    ((ApiService.register .networkFail st d).result
       = .error (.thrown ApiService.registerFallback)) ∧
    ((ApiService.getWeather .networkFail st q).result
       = .error (.thrown ApiService.weatherFallback)) ∧
    (body.truthy = true →
      (ApiService.login (.reply false body) st d).result = .error (.thrown body) ∧
      (ApiService.register (.reply false body) st d).result = .error (.thrown body) ∧
      (ApiService.getWeather (.reply false body) st q).result = .error (.thrown body)) ∧
    (body.truthy = false →
      (ApiService.login (.reply false body) st d).result
        = .error (.thrown ApiService.loginFallback) ∧
      (ApiService.register (.reply false body) st d).result
        = .error (.thrown ApiService.registerFallback) ∧
      (ApiService.getWeather (.reply false body) st q).result
        = .error (.thrown ApiService.weatherFallback)) ∧
    ((ApiService.login beh st d).sent.length ≤ 1 ∧
     (ApiService.register beh st d).sent.length ≤ 1 ∧
     (ApiService.getWeather beh st q).sent.length ≤ 1) := by
  rcases interceptRequest_ok st h with ⟨hdrs, hI⟩
  refine ⟨?_, ?_, ?_, ?_, ?_, ?_, ?_, ?_⟩
  · simp [ApiService.login, hI]
  · simp [ApiService.register, hI]
  · simp [ApiService.getWeather, hI]
  · intro hbt
    refine ⟨?_, ?_, ?_⟩ <;>
      simp [ApiService.login, ApiService.register, ApiService.getWeather, hI, hbt]
  · intro hbf
    refine ⟨?_, ?_, ?_⟩ <;>
      simp [ApiService.login, ApiService.register, ApiService.getWeather, hI, hbf]
  · cases beh with
    | networkFail => simp [ApiService.login, hI]
    | reply ok body' =>
      cases ok
      · simp [ApiService.login, hI]
      · simp only [ApiService.login, hI]
        repeat' split
        all_goals simp
  · cases beh with
    | networkFail => simp [ApiService.register, hI]
    | reply ok body' => cases ok <;> simp [ApiService.register, hI]
  · cases beh with
    | networkFail => simp [ApiService.getWeather, hI]
    | reply ok body' => cases ok <;> simp [ApiService.getWeather, hI]

/-- C8 witness: the amended statement at the empty storage state, a truthy
string error body, and a network failure. -/
theorem C8_witness :
    goodStore none = true ∧
    (ApiService.login .networkFail none (.obj [])).result
      = .error (.thrown ApiService.loginFallback) ∧
    (ApiService.register .networkFail none (.obj [])).result
      = .error (.thrown ApiService.registerFallback) ∧
    (ApiService.getWeather .networkFail none "x").result
      = .error (.thrown ApiService.weatherFallback) ∧
    ((JsVal.str "err").truthy = true →
      (ApiService.login (.reply false (.str "err")) none (.obj [])).result
        = .error (.thrown (.str "err")) ∧
      (ApiService.register (.reply false (.str "err")) none (.obj [])).result
        = .error (.thrown (.str "err")) ∧
      (ApiService.getWeather (.reply false (.str "err")) none "x").result
        = .error (.thrown (.str "err"))) ∧
    ((JsVal.str "err").truthy = false →
      (ApiService.login (.reply false (.str "err")) none (.obj [])).result
        = .error (.thrown ApiService.loginFallback) ∧
      (ApiService.register (.reply false (.str "err")) none (.obj [])).result
        = .error (.thrown ApiService.registerFallback) ∧
      (ApiService.getWeather (.reply false (.str "err")) none "x").result
        = .error (.thrown ApiService.weatherFallback)) ∧
    ((ApiService.login .networkFail none (.obj [])).sent.length ≤ 1 ∧
     (ApiService.register .networkFail none (.obj [])).sent.length ≤ 1 ∧
     (ApiService.getWeather .networkFail none "x").sent.length ≤ 1) :=
  ⟨rfl, C8_error_surfacing_amended .networkFail none (.obj []) (.str "err") "x" rfl⟩

/-! ### C9 — getWeather percent-encodes the query -/

/-- Every hexadecimal digit character is in the unescaped set (digits and
uppercase letters pass through `encodeURIComponent`). -/
theorem hexDigit_unreserved : ∀ k, k < 16 → isUnreservedURI (hexDigit k) = true := by decide

/-- Every character emitted by `encodeChar` is either unreserved or the
percent sign — the encoding leaves no reserved URI character in the output. -/
theorem encodeChar_safe (c : Char) :
    ∀ x ∈ encodeChar c, (isUnreservedURI x || x.toNat == 37) = true := by
  intro x hx
  unfold encodeChar at hx
  by_cases hc : isUnreservedURI c = true
  · simp [hc] at hx
    subst hx
    simp [hc]
  · simp [hc] at hx
    rcases hx with ⟨b, _, hxb⟩
    simp [percentByte] at hxb
    rcases hxb with h1 | h2 | h3
    · subst h1; decide
    · subst h2
      have := hexDigit_unreserved ((b / 16) % 16) (Nat.mod_lt _ (by decide))
      simp [this]
    · subst h3
      have := hexDigit_unreserved (b % 16) (Nat.mod_lt _ (by decide))
      simp [this]

/-- C9: for every query string and parseable storage state, `getWeather`
transmits exactly one GET request whose URL is the `/weather/get` endpoint
with the percent-encoded query as the `q` parameter, and the encoded query
consists only of unreserved characters and percent escapes. -/
theorem C9_getWeather_encodes (beh : ServerBehavior) (st : Option Stored) (query : String)
    (h : goodStore st = true) :
    (∃ hdrs, (ApiService.getWeather beh st query).sent
      = [Request.get ("/weather/get?q=" ++ encodeURIComponent query) hdrs]) ∧
    (∀ c ∈ (encodeURIComponent query).data, (isUnreservedURI c || c.toNat == 37) = true) := by
  constructor
  · rcases interceptRequest_ok st h with ⟨hdrs, hI⟩
    refine ⟨hdrs, ?_⟩
    cases beh with
    | networkFail => simp [ApiService.getWeather, hI]
    | reply ok body => cases ok <;> simp [ApiService.getWeather, hI]
  · intro c hc
    have hdata : (encodeURIComponent query).data = query.data.flatMap encodeChar := rfl
    rw [hdata] at hc
    rcases List.mem_flatMap.mp hc with ⟨c0, hc0, hcc⟩
    exact encodeChar_safe c0 c hcc

/-- C9 witness: the default query of the weather screen is percent-encoded
and sent as the `q` parameter of the GET request. -/
theorem C9_witness :
    goodStore none = true ∧
    ((∃ hdrs, (ApiService.getWeather .networkFail none "San Diego, CA").sent
      = [Request.get ("/weather/get?q=" ++ encodeURIComponent "San Diego, CA") hdrs]) ∧
     (∀ c ∈ (encodeURIComponent "San Diego, CA").data,
       (isUnreservedURI c || c.toNat == 37) = true)) :=
  ⟨rfl, C9_getWeather_encodes .networkFail none "San Diego, CA" rfl⟩
